import Mathlib

/-!
Shallow embedding of src/main.py, a FastAPI backend with a quote
submission handler (POST /api/quote), a static portfolio endpoint
(GET /api/portfolio) and a database diagnostics endpoint (GET /test).
External collaborators — the document store (create_document), the SMTP
transport and the database module — are modelled as explicit oracle
parameters describing their outcome for the one request at hand.
Python exceptions are modelled with Except over an exception value
carrying str(e); every try/except of the source appears as an explicit
match on such a value, so totality of the embedded handler expresses
that no exception escapes to the caller.
-/

deriving instance DecidableEq for Except

/-- Python exception object, reduced to its message str(e). -/
structure PyExc where
  msg : String
deriving DecidableEq

/-- Python truthiness of an optional string, as used on os.getenv
results in main.py: None and the empty string are falsy. -/
def truthy : Option String → Bool
  | none => false
  | some s => s != ""

/-- Python expression x or d for an optional string x: yields d when x
is None or the empty string (falsy), otherwise the string itself. This
models doc_id or the not saved marker on line 47 of main.py. -/
def pyOr : Option String → String → String
  | none, d => d
  | some s, d => if s == "" then d else s

/-- Whitespace characters stripped by the Python int() conversion. -/
def isPySpace (c : Char) : Bool :=
  c == ' ' || c == '\t' || c == '\n' || c == '\r' || c == '\x0b' || c == '\x0c'

/-- Strip leading and trailing whitespace from a character list. -/
def trimChars (cs : List Char) : List Char :=
  ((cs.dropWhile isPySpace).reverse.dropWhile isPySpace).reverse

/-- Accumulate the value of a decimal digit list. -/
def digitsToNat : List Char → Nat → Nat
  | [], acc => acc
  | c :: cs, acc => digitsToNat cs (acc * 10 + (c.toNat - 48))

/-- Value of a signed digit string, once whitespace is stripped: one
optional sign followed by at least one decimal digit. -/
def pyIntCore : List Char → Option Int
  | '-' :: ds =>
    if !ds.isEmpty && ds.all Char.isDigit then some (-(digitsToNat ds 0 : Int)) else none
  | '+' :: ds =>
    if !ds.isEmpty && ds.all Char.isDigit then some (digitsToNat ds 0 : Int) else none
  | ds =>
    if !ds.isEmpty && ds.all Char.isDigit then some (digitsToNat ds 0 : Int) else none

/-- Python builtin int() applied to a string, as on line 56 of main.py:
surrounding whitespace is stripped, one leading sign is allowed, at
least one digit is required; any other string raises ValueError. -/
def pyInt (s : String) : Except PyExc Int :=
  match pyIntCore (trimChars s.data) with
  | some n => Except.ok n
  | none => Except.error ⟨"invalid literal for int with base 10: " ++ s⟩

/-- Python slicing s[:n] on a string. -/
def pyTake (s : String) (n : Nat) : String := ⟨s.data.take n⟩

/-- Python str.lower restricted to ASCII, used to relate the collection
name constant to the schema class name. -/
def pyLower (s : String) : String := ⟨s.data.map Char.toLower⟩

/-- Split a character list on a separator character; like the Python
str.split with an explicit separator, the result always has one more
part than there are separators. -/
def splitOnChar (sep : Char) : List Char → List (List Char)
  | [] => [[]]
  | c :: cs =>
    let r := splitOnChar sep cs
    if c == sep then [] :: r
    else
      match r with
      | [] => [[c]]
      | h :: t => (c :: h) :: t

/-- Environment variables read by main.py, each possibly unset. -/
structure Env where
  quoteEmailTo : Option String
  quoteEmailFrom : Option String
  smtpHost : Option String
  smtpPort : Option String
  smtpUser : Option String
  smtpPass : Option String
  databaseUrl : Option String
  databaseName : Option String
deriving DecidableEq

/-- Inbound quote request payload. The schemas module defining the
pydantic model is not under src; the field set is taken from the field
accesses in submit_quote (lines 41 to 46 of main.py) and matches the
data model section of the spec. -/
structure QuoteRequest where
  name : String
  email : String
  phone : String
  projectType : String
  postcode : String
  message : String
deriving DecidableEq

/-- Response body returned by submit_quote on line 69 of main.py. -/
structure QuoteResponse where
  status : String
  id : Option String
deriving DecidableEq

/-- Observable trace of one run of submit_quote: the returned response,
the collection name passed to the store, the constructed notification
message (subject, sender, recipient, body) and whether the SMTP send
block was reached. -/
structure SubmitTrace where
  response : QuoteResponse
  storeCollection : String
  msgSubject : String
  msgFrom : String
  msgTo : String
  emailBody : String
  sendAttempted : Bool
deriving DecidableEq

/-- Collection name passed to create_document on line 27 of main.py; the
comment there records it as the lowercased schema class name. -/
def quoteCollection : String := "quoterequest"

/-- Identifier obtained by the persistence attempt: the try/except on
lines 25 to 30 maps success to the identifier and any exception at all
to None. -/
def docIdOf : Except PyExc String → Option String
  | Except.ok i => some i
  | Except.error _ => none

/-- Fixed field lines of the notification body, lines 41 to 46. -/
def bodyFields (p : QuoteRequest) : String :=
  "Name: " ++ p.name ++ "\n" ++
  "Email: " ++ p.email ++ "\n" ++
  "Phone: " ++ p.phone ++ "\n" ++
  "Project Type: " ++ p.projectType ++ "\n" ++
  "Postcode: " ++ p.postcode ++ "\n\n" ++
  "Message:\n" ++ p.message ++ "\n\n"

/-- Record ID line of the notification body, line 47 of main.py. -/
def recordIdLine (doc_id : Option String) : String :=
  "Record ID: " ++ pyOr doc_id "not saved" ++ "\n"

/-- Full notification body, lines 40 to 48 of main.py. -/
def buildBody (p : QuoteRequest) (doc_id : Option String) : String :=
  bodyFields p ++ recordIdLine doc_id

/-- Whether the email step reaches the sendmail call: the SMTP_PORT
string must parse as an int (line 56 raises otherwise, aborting the
block) and host, user and password must all be truthy (line 60). -/
def emailConfigured (env : Env) : Bool :=
  match pyInt ((env.smtpPort).getD "587") with
  | Except.error _ => false
  | Except.ok _ => truthy env.smtpHost && truthy env.smtpUser && truthy env.smtpPass

/-- Handler of POST /api/quote, lines 23 to 69 of main.py. The store
oracle gives the outcome of create_document for a collection name and
payload; the send oracle gives the outcome of the SMTP connect, login
and sendmail block. Both try/except blocks of the source are explicit
matches here, so the function is total: every collaborator exception is
swallowed and a response is always produced. -/
def submit_quote (payload : QuoteRequest) (env : Env)
    (store : String → QuoteRequest → Except PyExc String)
    (send : Except PyExc Unit) : SubmitTrace :=
  let doc_id := docIdOf (store quoteCollection payload)
  let recipient := (env.quoteEmailTo).getD "jamesleegrundy@gmail.com"
  let sender := (env.quoteEmailFrom).getD "no-reply@flames.blue"
  let subject := "New Quote Request – James Lee Builders"
  let body := buildBody payload doc_id
  let attempted :=
    match pyInt ((env.smtpPort).getD "587") with
    | Except.error _ => false
    | Except.ok _ =>
      if truthy env.smtpHost && truthy env.smtpUser && truthy env.smtpPass then
        match send with
        | Except.ok _ => true
        | Except.error _ => true
      else false
  { response := { status := "ok", id := doc_id },
    storeCollection := quoteCollection,
    msgSubject := subject,
    msgFrom := sender,
    msgTo := recipient,
    emailBody := body,
    sendAttempted := attempted }

/-- Modelled from the spec: the schemas module holding the pydantic
QuoteRequest with its EmailStr field is not under src. The spec requires
the email to be a syntactically valid address; we require exactly one
at-sign separating a nonempty local part from a nonempty domain that
contains a dot and has nonempty labels. -/
def isValidEmail (s : String) : Bool :=
  match splitOnChar '@' s.data with
  | [lp, dom] =>
    !lp.isEmpty && !dom.isEmpty && decide (2 ≤ (splitOnChar '.' dom).length) &&
      (splitOnChar '.' dom).all (fun t => !t.isEmpty)
  | _ => false

/-- Structured request-validation failure produced by the framework. -/
inductive ValidationError where
  | invalidEmail
deriving DecidableEq

/-- Modelled from the spec: framework request validation runs before the
handler, so a payload with an invalid email is rejected with a
structured validation error and submit_quote is never entered. -/
def post_api_quote (payload : QuoteRequest) (env : Env)
    (store : String → QuoteRequest → Except PyExc String)
    (send : Except PyExc Unit) : Except ValidationError SubmitTrace :=
  if isValidEmail payload.email then
    Except.ok (submit_quote payload env store send)
  else
    Except.error ValidationError.invalidEmail

/-- One portfolio entry of GET /api/portfolio. -/
structure PortfolioItem where
  id : String
  title : String
  thumb : String
  images : List String
  description : String
deriving DecidableEq

/-- Handler of GET /api/portfolio, lines 71 to 96 of main.py: a constant
list of three items. -/
def get_portfolio (_u : Unit) : List PortfolioItem :=
  [ { id := "proj-1",
      title := "Driveway & Paving – Haslingden",
      thumb := "/images/driveway1.jpg",
      images := ["/images/driveway1.jpg", "/images/driveway1b.jpg"],
      description := "Block-paved driveway with drainage and edging." },
    { id := "proj-2",
      title := "Brickwork & Garden Wall – Rawtenstall",
      thumb := "/images/brickwork1.jpg",
      images := ["/images/brickwork1.jpg", "/images/brickwork1b.jpg"],
      description := "Reclaimed brick wall with coping stones." },
    { id := "proj-3",
      title := "Roofing Repair – Ramsbottom",
      thumb := "/images/roof1.jpg",
      images := ["/images/roof1.jpg", "/images/roof1b.jpg"],
      description := "Slate tile replacement and flashing." } ]

/-- Handle on the database object from the database module: its name
attribute when present, and the outcome of list_collection_names. -/
structure DBHandle where
  name : Option String
  listCollectionNames : Except PyExc (List String)

/-- Outcome of the statement from database import db on line 112: the
module loads and db is bound (possibly to None), the module is missing
(ImportError), or loading raises some other exception. -/
inductive ImportOutcome where
  | ok (db : Option DBHandle)
  | importErr
  | otherError (e : PyExc)

/-- Response body of GET /test, lines 101 to 108 of main.py. -/
structure TestReport where
  backend : String
  database : String
  database_url : Option String
  database_name : Option String
  connection_status : String
  collections : List String
deriving DecidableEq

/-- Handler of GET /test, lines 98 to 140 of main.py. Every try/except
arm of the source is an explicit branch, so the function is total: no
failure of the import or of collection enumeration propagates. The two
environment checks on lines 137 and 138 overwrite the url and name
fields at the end, exactly as in the source. -/
def test_database (imp : ImportOutcome) (env : Env) : TestReport :=
  let r0 : TestReport :=
    { backend := "✅ Running",
      database := "❌ Not Available",
      database_url := none,
      database_name := none,
      connection_status := "Not Connected",
      collections := [] }
  let r1 :=
    match imp with
    | ImportOutcome.ok (some db) =>
      let r2 :=
        { r0 with
          database := "✅ Available",
          database_url := some "✅ Configured",
          database_name := some (db.name.getD "✅ Connected"),
          connection_status := "Connected" }
      match db.listCollectionNames with
      | Except.ok cols =>
        { r2 with collections := cols.take 10, database := "✅ Connected & Working" }
      | Except.error e =>
        { r2 with database := "⚠️  Connected but Error: " ++ pyTake e.msg 50 }
    | ImportOutcome.ok none =>
      { r0 with database := "⚠️  Available but not initialized" }
    | ImportOutcome.importErr =>
      { r0 with database := "❌ Database module not found (run enable-database first)" }
    | ImportOutcome.otherError e =>
      { r0 with database := "❌ Error: " ++ pyTake e.msg 50 }
  { r1 with
    database_url := some (if truthy env.databaseUrl then "✅ Set" else "❌ Not Set"),
    database_name := some (if truthy env.databaseName then "✅ Set" else "❌ Not Set") }

/-- Sample payload used by witnesses. -/
def pSample : QuoteRequest :=
  ⟨"Jo Smith", "jo@example.com", "07700 900000", "roofing", "BB4 5AA", "Please quote."⟩

/-- Environment with nothing set, used by witnesses. -/
def envNone : Env := ⟨none, none, none, none, none, none, none, none⟩

/-- Environment with full SMTP configuration, used by witnesses. -/
def envFull : Env :=
  ⟨none, none, some "smtp.example.com", some "587", some "user", some "pw", none, none⟩

/-- Environment with SMTP configured but a non-numeric port. -/
def envBadPort : Env :=
  ⟨none, none, some "smtp.example.com", some "nonsense", some "user", some "pw", none, none⟩

/-- Environment whose SMTP host is missing, used by witnesses. -/
def envNoHost : Env :=
  ⟨none, none, none, some "587", some "user", some "pw", none, none⟩

/-- Store oracle that persists successfully, used by witnesses. -/
def storeOk : String → QuoteRequest → Except PyExc String :=
  fun _ _ => Except.ok "abc123"

/-- Store oracle that raises, used by witnesses. -/
def storeFail : String → QuoteRequest → Except PyExc String :=
  fun _ _ => Except.error ⟨"store error"⟩

/-- C1: for every valid QuoteRequest payload and every outcome of the
persistence and notification collaborators, the POST /api/quote handler
returns status ok with the store-assigned identifier or none; the
embedding is a total function in which every try/except arm of the
source is explicit, so no exception escapes to the caller. -/
theorem submit_quote_always_ok (p : QuoteRequest) (env : Env)
    (store : String → QuoteRequest → Except PyExc String)
    (send : Except PyExc Unit) :
    (submit_quote p env store send).response.status = "ok" ∧
    (submit_quote p env store send).response.id
      = docIdOf (store quoteCollection p) := by
  exact ⟨rfl, rfl⟩

/-- C2: when create_document raises, the exception is swallowed, the
identifier becomes none, the notification step still runs on a body
carrying the not saved marker with the send reached exactly when the
transport is configured, the response id is none, and distinct
exception values produce identical traces. -/
theorem submit_quote_store_failure (p : QuoteRequest) (env : Env)
    (store : String → QuoteRequest → Except PyExc String)
    (send : Except PyExc Unit) (e : PyExc)
    (h : store quoteCollection p = Except.error e) :
    (submit_quote p env store send).response.id = none ∧
    (submit_quote p env store send).emailBody = bodyFields p ++ recordIdLine none ∧
    (submit_quote p env store send).sendAttempted = emailConfigured env ∧
    (∀ e2 : PyExc,
      submit_quote p env (fun _ _ => Except.error e2) send
        = submit_quote p env store send) := by
  refine ⟨?_, ?_, ?_, ?_⟩
  · simp [submit_quote, docIdOf, h]
  · simp [submit_quote, buildBody, docIdOf, h]
  · simp only [submit_quote, emailConfigured]
    cases pyInt ((env.smtpPort).getD "587") with
    | error e3 => rfl
    | ok n =>
      cases send with
      | ok u => simp
      | error e3 => simp
  · intro e2
    simp [submit_quote, docIdOf, h]

/-- C2 witness at a concrete payload, environment and failing store. -/
theorem submit_quote_store_failure_witness :
    (submit_quote pSample envFull storeFail (Except.ok ())).response.id = none ∧
    (submit_quote pSample envFull storeFail (Except.ok ())).emailBody
      = bodyFields pSample ++ recordIdLine none ∧
    (submit_quote pSample envFull storeFail (Except.ok ())).sendAttempted
      = emailConfigured envFull :=
  ⟨(submit_quote_store_failure pSample envFull storeFail (Except.ok ()) ⟨"store error"⟩ rfl).1,
   (submit_quote_store_failure pSample envFull storeFail (Except.ok ()) ⟨"store error"⟩ rfl).2.1,
   (submit_quote_store_failure pSample envFull storeFail (Except.ok ()) ⟨"store error"⟩ rfl).2.2.1⟩

/-- C5: the notification body ends with the Record ID line, whose value
is the marker string not saved whenever the persistence step yielded no
identifier or an empty one, and the identifier itself otherwise; it is
never empty. -/
theorem record_id_line_marker (p : QuoteRequest) (env : Env)
    (store : String → QuoteRequest → Except PyExc String)
    (send : Except PyExc Unit) (d : Option String) :
    (submit_quote p env store send).emailBody
      = bodyFields p ++ recordIdLine (docIdOf (store quoteCollection p)) ∧
    recordIdLine d = "Record ID: " ++ pyOr d "not saved" ++ "\n" ∧
    pyOr d "not saved" ≠ "" ∧
    pyOr d "not saved"
      = (match d with
         | none => "not saved"
         | some s => if s = "" then "not saved" else s) := by
  refine ⟨rfl, rfl, ?_, ?_⟩
  · cases d with
    | none => simp [pyOr]
    | some s =>
      by_cases hs : s = "" <;> simp [pyOr, hs]
  · cases d with
    | none => rfl
    | some s =>
      by_cases hs : s = "" <;> simp [pyOr, hs]

/-- C6: the persistence call always targets the fixed collection name
quoterequest, the lowercase form of the schema class name QuoteRequest;
it does not depend on the payload, the environment or the collaborator
outcomes. -/
theorem store_collection_fixed (p : QuoteRequest) (env : Env)
    (store : String → QuoteRequest → Except PyExc String)
    (send : Except PyExc Unit) :
    (submit_quote p env store send).storeCollection = "quoterequest" ∧
    quoteCollection = pyLower "QuoteRequest" ∧
    (∀ (p2 : QuoteRequest) (env2 : Env)
      (store2 : String → QuoteRequest → Except PyExc String)
      (send2 : Except PyExc Unit),
      (submit_quote p env store send).storeCollection
        = (submit_quote p2 env2 store2 send2).storeCollection) := by
  exact ⟨rfl, by decide, fun _ _ _ _ => rfl⟩

/-- C3: if any of the three SMTP configuration values is absent or
empty, the send block is never reached and the response still has
status ok; moreover any two such partial configurations, differing only
in the host, user and password fields, produce identical traces. -/
theorem submit_quote_unconfigured (p : QuoteRequest) (env : Env)
    (store : String → QuoteRequest → Except PyExc String)
    (send : Except PyExc Unit)
    (h : (truthy env.smtpHost && truthy env.smtpUser && truthy env.smtpPass) = false) :
    (submit_quote p env store send).sendAttempted = false ∧
    (submit_quote p env store send).response.status = "ok" ∧
    (∀ h1 u1 w1 h2 u2 w2 : Option String,
      (truthy h1 && truthy u1 && truthy w1) = false →
      (truthy h2 && truthy u2 && truthy w2) = false →
      submit_quote p { env with smtpHost := h1, smtpUser := u1, smtpPass := w1 } store send
        = submit_quote p { env with smtpHost := h2, smtpUser := u2, smtpPass := w2 } store send) := by
  refine ⟨?_, rfl, ?_⟩
  · cases hp : pyInt ((env.smtpPort).getD "587") <;> simp [submit_quote, hp, h]
  · intro h1 u1 w1 h2 u2 w2 hA hB
    cases hp : pyInt ((env.smtpPort).getD "587") <;> simp [submit_quote, hp, hA, hB]

/-- C3 witness at an environment whose SMTP host is missing. -/
theorem submit_quote_unconfigured_witness :
    (submit_quote pSample envNoHost storeOk (Except.ok ())).sendAttempted = false ∧
    (submit_quote pSample envNoHost storeOk (Except.ok ())).response.status = "ok" :=
  ⟨(submit_quote_unconfigured pSample envNoHost storeOk (Except.ok ()) (by decide)).1,
   (submit_quote_unconfigured pSample envNoHost storeOk (Except.ok ()) (by decide)).2.1⟩

/-- C4: with SMTP host, user and password all present, the response when
the send block raises equals the response when it succeeds; in fact the
entire observable trace coincides, so the send outcome has no effect on
the response. -/
theorem send_outcome_invisible (p : QuoteRequest) (env : Env)
    (store : String → QuoteRequest → Except PyExc String) (e : PyExc)
    (hh : truthy env.smtpHost = true) (hu : truthy env.smtpUser = true)
    (hw : truthy env.smtpPass = true) :
    (submit_quote p env store (Except.error e)).response
      = (submit_quote p env store (Except.ok ())).response ∧
    submit_quote p env store (Except.error e)
      = submit_quote p env store (Except.ok ()) := by
  refine ⟨rfl, ?_⟩
  cases hp : pyInt ((env.smtpPort).getD "587") <;> simp [submit_quote, hp]

/-- C4 witness at a fully configured environment and a failing send. -/
theorem send_outcome_invisible_witness :
    (submit_quote pSample envFull storeOk (Except.error ⟨"auth failed"⟩)).response
      = (submit_quote pSample envFull storeOk (Except.ok ())).response ∧
    submit_quote pSample envFull storeOk (Except.error ⟨"auth failed"⟩)
      = submit_quote pSample envFull storeOk (Except.ok ()) :=
  send_outcome_invisible pSample envFull storeOk ⟨"auth failed"⟩ (by decide) (by decide)
    (by decide)

/-- C7: GET /api/portfolio returns the same fixed ordered three item
list on every invocation, with ids proj-1, proj-2 and proj-3 in that
order and the literal titles, thumbnails, image lists and descriptions
of the source. -/
theorem portfolio_fixed (u : Unit) :
    get_portfolio u
      = [ ⟨"proj-1", "Driveway & Paving – Haslingden", "/images/driveway1.jpg",
            ["/images/driveway1.jpg", "/images/driveway1b.jpg"],
            "Block-paved driveway with drainage and edging."⟩,
          ⟨"proj-2", "Brickwork & Garden Wall – Rawtenstall", "/images/brickwork1.jpg",
            ["/images/brickwork1.jpg", "/images/brickwork1b.jpg"],
            "Reclaimed brick wall with coping stones."⟩,
          ⟨"proj-3", "Roofing Repair – Ramsbottom", "/images/roof1.jpg",
            ["/images/roof1.jpg", "/images/roof1b.jpg"],
            "Slate tile replacement and flashing."⟩ ] ∧
    List.map (fun i => i.id) ( get_portfolio u) = ["proj-1", "proj-2", "proj-3"] ∧
    ( get_portfolio u).length = 3 ∧
    (∀ v : Unit, get_portfolio u = get_portfolio v) := by
  exact ⟨rfl, rfl, rfl, fun _ => rfl⟩

/-- C8: GET /test is total over every import and enumeration outcome
(so it never raises); a missing store module yields the module not
found text with an empty collections list, at most 10 collection names
are ever reported, and an enumeration failure after a successful
connect is reported with its own warning text while connection_status
still reads Connected, distinct from the full-failure report. -/
theorem test_database_report (imp : ImportOutcome) (env : Env)
    (nm : Option String) (e : PyExc) :
    (test_database imp env).collections.length ≤ 10 ∧
    (test_database ImportOutcome.importErr env).database
      = "❌ Database module not found (run enable-database first)" ∧
    (test_database ImportOutcome.importErr env).collections = [] ∧
    (test_database (ImportOutcome.ok (some ⟨nm, Except.error e⟩)) env).database
      = "⚠️  Connected but Error: " ++ pyTake e.msg 50 ∧
    (test_database (ImportOutcome.ok (some ⟨nm, Except.error e⟩)) env).connection_status
      = "Connected" ∧
    (test_database ImportOutcome.importErr env).connection_status = "Not Connected" := by
  refine ⟨?_, rfl, rfl, rfl, rfl, rfl⟩
  cases imp with
  | ok odb =>
    cases odb with
    | none => simp [test_database]
    | some db =>
      cases hc : db.listCollectionNames with
      | ok cols =>
        have hmin : min 10 cols.length ≤ 10 := Nat.min_le_left _ _
        simpa [test_database, hc, List.length_take] using hmin
      | error e2 => simp [test_database, hc]
  | importErr => simp [test_database]
  | otherError e2 => simp [test_database]

/-- C9: a payload whose email is not a syntactically valid address is
rejected with a structured validation error before the handler runs,
and the result does not depend on the store or transport collaborators,
so the handler body is never executed for such a request. -/
theorem invalid_email_rejected (p : QuoteRequest) (env : Env)
    (store : String → QuoteRequest → Except PyExc String)
    (send : Except PyExc Unit)
    (h : isValidEmail p.email = false) :
    post_api_quote p env store send = Except.error ValidationError.invalidEmail ∧
    (∀ (store2 : String → QuoteRequest → Except PyExc String)
      (send2 : Except PyExc Unit),
      post_api_quote p env store2 send2 = post_api_quote p env store send) := by
  constructor
  · simp [post_api_quote, h]
  · intro store2 send2
    simp [post_api_quote, h]

/-- C9 witness at the concrete invalid email not-an-email. -/
theorem invalid_email_rejected_witness :
    post_api_quote ⟨"Jo", "not-an-email", "", "", "", ""⟩ envNone storeOk (Except.ok ())
      = Except.error ValidationError.invalidEmail :=
  (invalid_email_rejected ⟨"Jo", "not-an-email", "", "", "", ""⟩ envNone storeOk
    (Except.ok ()) (by decide)).1

/-- C10: when SMTP_PORT is set to a string that is not a valid integer,
the int conversion raises inside the swallowed notification block, so
the send is never reached even with host, user and password all
present, and the response is still ok with the identifier obtained from
persistence. -/
theorem bad_port_skips_send (p : QuoteRequest) (env : Env)
    (store : String → QuoteRequest → Except PyExc String)
    (send : Except PyExc Unit) (s : String) (e : PyExc)
    (hs : env.smtpPort = some s) (hp : pyInt s = Except.error e)
    (hh : truthy env.smtpHost = true) (hu : truthy env.smtpUser = true)
    (hw : truthy env.smtpPass = true) :
    (submit_quote p env store send).sendAttempted = false ∧
    (submit_quote p env store send).response
      = { status := "ok", id := docIdOf (store quoteCollection p) } := by
  refine ⟨?_, rfl⟩
  simp [submit_quote, hs, hp]

/-- C10 witness at the concrete port string nonsense. -/
theorem bad_port_skips_send_witness :
    (submit_quote pSample envBadPort storeOk (Except.ok ())).sendAttempted = false ∧
    (submit_quote pSample envBadPort storeOk (Except.ok ())).response
      = { status := "ok", id := docIdOf (storeOk quoteCollection pSample) } :=
  bad_port_skips_send pSample envBadPort storeOk (Except.ok ()) "nonsense"
    ⟨"invalid literal for int with base 10: nonsense"⟩ rfl (by decide) (by decide) (by decide)
    (by decide)
